import Mathlib

/-!
Shallow embedding of the two wizard controllers of the
sistema-plantao-medico repository:

* `Register` — the registration wizard of `src/app/register/page.tsx`
  (step counter, role selection, CNPJ/CRM format validators, submit with
  its two preconditions).
* `Profile` — the document-checklist wizard of
  `src/app/dashboard/profile/page.tsx` (14 document slots, the file
  size/type guard, per-group advance gating, the upload-then-record
  submit, and the localStorage persistence effect).

Stateful React code is embedded as explicit state passing: each handler
is a pure function from the component state (and an environment oracle
for the external Firebase services) to the new state plus the observable
effects it performed (toasts, external calls).
-/

namespace Register

/-- The `role` state: `"doctor" | "hospital"` (page.tsx line 21). -/
inductive Role
  | doctor
  | hospital
deriving DecidableEq

/-- The component state of RegisterPage (page.tsx lines 16-24):
`step`, the draft fields, the selected role, and the `isLoading`
in-flight flag.  `step` is a JS number; `Int` keeps decrements honest. -/
structure RegState where
  step : Int
  name : String
  email : String
  password : String
  confirmPassword : String
  role : Option Role
  isLoading : Bool
  cnpj : String
  crm : String
deriving DecidableEq

/-- The initial state of the `useState` hooks (page.tsx lines 16-24). -/
def regInit : RegState :=
  { step := 0, name := "", email := "", password := "", confirmPassword := ""
  , role := Option.none, isLoading := false, cnpj := "", crm := "" }

/-- `isValidCnpj` (page.tsx lines 56-59): the regex
`^\d{2}\.\d{3}\.\d{3}\/\d{4}-\d{2}$` — exactly 18 characters, digits in
the shown positions, literal `.` `.` `/` `-` separators. -/
def isValidCnpj (cnpj : String) : Bool :=
  match cnpj.data with
  | [a, b, s1, c, d, e, s2, f, g, h, s3, i, j, k, l, s4, m, n] =>
      [a, b, c, d, e, f, g, h, i, j, k, l, m, n].all Char.isDigit
        && s1 == '.' && s2 == '.' && s3 == '/' && s4 == '-'
  | _ => false

/-- The whitespace class `\s` of a JavaScript regex (no `u` flag):
tab, LF, VT, FF, CR, space, NBSP, U+1680, U+2000-U+200A, LS, PS,
U+202F, U+205F, U+3000 and the BOM U+FEFF. -/
def isJsWhitespace (c : Char) : Bool :=
  c.val == 0x9 || c.val == 0xA || c.val == 0xB || c.val == 0xC || c.val == 0xD
    || c.val == 0x20 || c.val == 0xA0 || c.val == 0x1680
    || (0x2000 ≤ c.val && c.val ≤ 0x200A)
    || c.val == 0x2028 || c.val == 0x2029 || c.val == 0x202F || c.val == 0x205F
    || c.val == 0x3000 || c.val == 0xFEFF

/-- `\d{4,6}` against the whole remaining input: 4 to 6 ASCII digits. -/
def crmDigits (ds : List Char) : Bool :=
  decide (4 ≤ ds.length) && decide (ds.length ≤ 6) && ds.all Char.isDigit

/-- What `\s?\d{4,6}$` accepts after the literal `CRM`: either the digits
directly, or one `\s` character and then the digits. -/
def crmTail (rest : List Char) : Bool :=
  crmDigits rest
    || (match rest with
        | c :: r2 => isJsWhitespace c && crmDigits r2
        | [] => false)

/-- The character-list body of `isValidCrm`: `^CRM` then `crmTail`. -/
def isValidCrmChars (cs : List Char) : Bool :=
  match cs with
  | a :: b :: c :: rest => a == 'C' && b == 'R' && c == 'M' && crmTail rest
  | _ => false

/-- `isValidCrm` (page.tsx lines 62-65): the regex `^CRM\s?\d{4,6}$`. -/
def isValidCrm (crm : String) : Bool :=
  isValidCrmChars crm.data

/-- The spec's words for `isValidCrm`, as a second definition to compare
with the code: literal `CRM`, optionally followed by one space character
`' '` (exactly a space), followed by 4-6 digits, entire string. -/
def crmClaimShape (s : String) : Bool :=
  match s.data with
  | 'C' :: 'R' :: 'M' :: rest =>
      crmDigits rest
        || (match rest with
            | ' ' :: r2 => crmDigits r2
            | _ => false)
  | _ => false

/-- The corrected reading of the regex, as a structural property: `CRM`,
optionally one JS-whitespace character, then 4-6 ASCII digits and
nothing else. -/
def crmWhitespaceShape (s : String) : Prop :=
  ∃ w d : List Char,
    s.data = 'C' :: 'R' :: 'M' :: (w ++ d)
      ∧ (w = [] ∨ ∃ c, w = [c] ∧ isJsWhitespace c = true)
      ∧ 4 ≤ d.length ∧ d.length ≤ 6 ∧ d.all Char.isDigit = true

/-- `handleRoleSelection` (page.tsx lines 28-31): set the role and move
to step 1, unconditionally. -/
def handleRoleSelection (s : RegState) (value : Role) : RegState :=
  { s with role := some value, step := 1 }

/-- `handleNextStep` (page.tsx lines 33-51).  The second component lists
the titles of the toasts shown (`[]` when the step advanced). -/
def handleNextStep (s : RegState) : RegState × List String :=
  if s.role = some Role.hospital ∧ s.step = 1 ∧ isValidCnpj s.cnpj = false then
    (s, ["CNPJ inválido"])
  else if s.role = some Role.doctor ∧ s.step = 1 ∧ isValidCrm s.crm = false then
    (s, ["CRM inválido"])
  else
    ({ s with step := s.step + 1 }, [])

/-- `handlePreviousStep` (page.tsx line 53): `setStep(step - 1)`, with no
guard of its own (the button is only rendered at step 2). -/
def handlePreviousStep (s : RegState) : RegState :=
  { s with step := s.step - 1 }

/-- What one call of `handleSubmit` performed: the state after the call
fully resolves, how many times `registerUser` was invoked, and the toast
titles shown. -/
structure SubmitOutcome where
  state : RegState
  registerCalls : Nat
  toasts : List String
deriving DecidableEq

/-- `handleSubmit` (page.tsx lines 67-127).  `registerOk` is the oracle
for whether the external `registerUser` call resolves or rejects (the
FirebaseError-code-to-message mapping of the catch block is collapsed to
the single error toast title, which is the same for every code).  Note
the function reads `password`, `confirmPassword` and `role` but never
the `isLoading` flag: there is no in-flight check before the external
call, only `setIsLoading(true)` after the validations and
`setIsLoading(false)` in the `finally`. -/
def handleSubmit (registerOk : Bool) (s : RegState) : SubmitOutcome :=
  if s.password ≠ s.confirmPassword then
    { state := s, registerCalls := 0, toasts := ["Senhas não coincidem"] }
  else
    match s.role with
    | Option.none => { state := s, registerCalls := 0, toasts := ["Erro"] }
    | some _ =>
        if registerOk then
          { state := { s with isLoading := false }, registerCalls := 1
          , toasts := ["Cadastro realizado com sucesso"] }
        else
          { state := { s with isLoading := false }, registerCalls := 1
          , toasts := ["Erro no cadastro"] }

/-- The `disabled={isLoading}` attribute of the submit button
(page.tsx lines 249-255 and 337-343): the only double-submit protection
the page has. -/
def submitDisabled (s : RegState) : Bool :=
  s.isLoading

/-- The states reachable through the operations as the UI offers them:
role selection is rendered only at step 0, the `Próximo` button only at
step 1, and `Voltar` and the submit button only at step 2 (`retreat` is
admitted at every step ≥ 1, which covers the UI's offering). -/
inductive RegReachable : RegState → Prop
  | init : RegReachable regInit
  | selectRole (s : RegState) (r : Role) :
      RegReachable s → s.step = 0 → RegReachable (handleRoleSelection s r)
  | advance (s : RegState) :
      RegReachable s → s.step = 1 → RegReachable (handleNextStep s).1
  | retreat (s : RegState) :
      RegReachable s → 1 ≤ s.step → RegReachable (handlePreviousStep s)
  | submit (s : RegState) (ok : Bool) :
      RegReachable s → s.step = 2 → RegReachable (handleSubmit ok s).state

end Register

namespace Profile

/-- A DOM `File` as the page observes it: the metadata the guards and
the renderer read (`name`, `size` in bytes, MIME `type`). -/
structure File where
  name : String
  size : Nat
  type : String
deriving DecidableEq

/-- One slot of the `documents` object.  In JS a slot holds `null`, an
in-session DOM `File`, or — after the `useState` initializer re-reads
the localStorage copy — the plain object `JSON.parse` produced, which is
truthy but fails `instanceof File`. -/
inductive DocEntry
  | null
  | file (f : File)
  | plainObj
deriving DecidableEq

/-- JS truthiness of a slot: `null` is falsy, any object (a `File` or a
parsed plain object) is truthy. -/
def DocEntry.isTruthy : DocEntry → Bool
  | .null => false
  | .file _ => true
  | .plainObj => true

/-- `entry instanceof File`. -/
def DocEntry.isFile : DocEntry → Bool
  | .file _ => true
  | _ => false

/-- The 14 document slots, in the insertion order of the object literal
(page.tsx lines 72-85). -/
inductive DocKey
  | rgFile
  | cpfFile
  | crmFile
  | photo
  | curriculum
  | criminalRecord
  | ethicalRecord
  | debtRecord
  | proofOfResidence
  | graduationCertificate
  | rqeFile
  | postGradCertificate
  | specialistTitle
  | recommendationLetter
deriving DecidableEq

/-- The keys as `Object.entries` enumerates them: the insertion order of
the object literal (page.tsx lines 72-85). -/
def DocKey.all : List DocKey :=
  [ .rgFile, .cpfFile, .crmFile, .photo, .curriculum, .criminalRecord
  , .ethicalRecord, .debtRecord, .proofOfResidence, .graduationCertificate
  , .rqeFile, .postGradCertificate, .specialistTitle, .recommendationLetter ]

/-- The key's JS property name, for the JSON serialization. -/
def DocKey.jsName : DocKey → String
  | .rgFile => "rgFile"
  | .cpfFile => "cpfFile"
  | .crmFile => "crmFile"
  | .photo => "photo"
  | .curriculum => "curriculum"
  | .criminalRecord => "criminalRecord"
  | .ethicalRecord => "ethicalRecord"
  | .debtRecord => "debtRecord"
  | .proofOfResidence => "proofOfResidence"
  | .graduationCertificate => "graduationCertificate"
  | .rqeFile => "rqeFile"
  | .postGradCertificate => "postGradCertificate"
  | .specialistTitle => "specialistTitle"
  | .recommendationLetter => "recommendationLetter"

/-- The `documents` state object (page.tsx lines 67-87). -/
structure Documents where
  rgFile : DocEntry
  cpfFile : DocEntry
  crmFile : DocEntry
  photo : DocEntry
  curriculum : DocEntry
  criminalRecord : DocEntry
  ethicalRecord : DocEntry
  debtRecord : DocEntry
  proofOfResidence : DocEntry
  graduationCertificate : DocEntry
  rqeFile : DocEntry
  postGradCertificate : DocEntry
  specialistTitle : DocEntry
  recommendationLetter : DocEntry
deriving DecidableEq

/-- Property read `documents[key]`. -/
def Documents.get (d : Documents) : DocKey → DocEntry
  | .rgFile => d.rgFile
  | .cpfFile => d.cpfFile
  | .crmFile => d.crmFile
  | .photo => d.photo
  | .curriculum => d.curriculum
  | .criminalRecord => d.criminalRecord
  | .ethicalRecord => d.ethicalRecord
  | .debtRecord => d.debtRecord
  | .proofOfResidence => d.proofOfResidence
  | .graduationCertificate => d.graduationCertificate
  | .rqeFile => d.rqeFile
  | .postGradCertificate => d.postGradCertificate
  | .specialistTitle => d.specialistTitle
  | .recommendationLetter => d.recommendationLetter

/-- The spread update `{ ...prev, [name]: e }`. -/
def Documents.set (d : Documents) (k : DocKey) (e : DocEntry) : Documents :=
  match k with
  | .rgFile => { d with rgFile := e }
  | .cpfFile => { d with cpfFile := e }
  | .crmFile => { d with crmFile := e }
  | .photo => { d with photo := e }
  | .curriculum => { d with curriculum := e }
  | .criminalRecord => { d with criminalRecord := e }
  | .ethicalRecord => { d with ethicalRecord := e }
  | .debtRecord => { d with debtRecord := e }
  | .proofOfResidence => { d with proofOfResidence := e }
  | .graduationCertificate => { d with graduationCertificate := e }
  | .rqeFile => { d with rqeFile := e }
  | .postGradCertificate => { d with postGradCertificate := e }
  | .specialistTitle => { d with specialistTitle := e }
  | .recommendationLetter => { d with recommendationLetter := e }

/-- The all-null object literal: the initializer fallback (page.tsx
lines 71-86) and the reset value of the success path (lines 265-280). -/
def emptyDocuments : Documents :=
  { rgFile := .null, cpfFile := .null, crmFile := .null, photo := .null
  , curriculum := .null, criminalRecord := .null, ethicalRecord := .null
  , debtRecord := .null, proofOfResidence := .null
  , graduationCertificate := .null, rqeFile := .null
  , postGradCertificate := .null, specialistTitle := .null
  , recommendationLetter := .null }

/-- What `JSON.stringify` makes of one slot: `null` for null, and `{}`
for any object value — a DOM `File` has no enumerable own properties, so
it also serializes as `{}`. -/
def DocEntry.serializeJson : DocEntry → String
  | .null => "null"
  | .file _ => "\x7b\x7d"
  | .plainObj => "\x7b\x7d"

/-- `JSON.stringify(documents)`: the keys in insertion order with each
slot's serialization. -/
def serializeDocuments (d : Documents) : String :=
  "\x7b" ++
    String.intercalate ","
      (DocKey.all.map fun k =>
        "\"" ++ k.jsName ++ "\":" ++ (d.get k).serializeJson)
    ++ "\x7d"

/-- What `JSON.parse (JSON.stringify entry)` restores: `null` stays
absent, any object (a File included) comes back as a plain object that
is no longer a `File` instance. -/
def rehydrateEntry : DocEntry → DocEntry
  | .null => .null
  | .file _ => .plainObj
  | .plainObj => .plainObj

/-- The `useState(documents)` initializer after a reload (page.tsx
lines 67-87): every slot of the cached set comes back rehydrated. -/
def rehydrate (d : Documents) : Documents :=
  { rgFile := rehydrateEntry d.rgFile
  , cpfFile := rehydrateEntry d.cpfFile
  , crmFile := rehydrateEntry d.crmFile
  , photo := rehydrateEntry d.photo
  , curriculum := rehydrateEntry d.curriculum
  , criminalRecord := rehydrateEntry d.criminalRecord
  , ethicalRecord := rehydrateEntry d.ethicalRecord
  , debtRecord := rehydrateEntry d.debtRecord
  , proofOfResidence := rehydrateEntry d.proofOfResidence
  , graduationCertificate := rehydrateEntry d.graduationCertificate
  , rqeFile := rehydrateEntry d.rqeFile
  , postGradCertificate := rehydrateEntry d.postGradCertificate
  , specialistTitle := rehydrateEntry d.specialistTitle
  , recommendationLetter := rehydrateEntry d.recommendationLetter }

/-- The ProfilePage state the document wizard touches: the stepper
(`currentStep`, page.tsx line 90), the `documents` set, the shared
`isLoading` flag, and the durable `localStorage` slot under the fixed
key `"hapvida-documents"` (`Option.none` = no entry for that key). -/
structure ProfileState where
  currentStep : Nat
  documents : Documents
  isLoading : Bool
  localCache : Option String
deriving DecidableEq

/-- The `useEffect` at page.tsx lines 139-141: after any render in which
`documents` changed, write `JSON.stringify(documents)` under the fixed
key.  React runs it after the handler that called `setDocuments` has
finished. -/
def persistEffect (s : ProfileState) : ProfileState :=
  { s with localCache := some (serializeDocuments s.documents) }

/-- The allowed MIME types of `handleFileChange` (page.tsx line 306). -/
def fileAllowedTypes : List String :=
  ["application/pdf", "image/jpeg", "image/png"]

/-- `handleFileChange` (page.tsx lines 294-316) for a selected file:
reject over-5MB files, then reject disallowed MIME types, otherwise
store the file under its input's `name` key.  The second component is
the toast title shown, `Option.none` when the file was accepted. -/
def handleFileChange (docs : Documents) (key : DocKey) (f : File) :
    Documents × Option String :=
  if f.size > 5 * 1024 * 1024 then
    (docs, some "Arquivo muito grande")
  else if (fileAllowedTypes.contains f.type) = false then
    (docs, some "Formato inválido")
  else
    (docs.set key (DocEntry.file f), Option.none)

/-- The spec's `fileGuard` (§4.3), as a second definition to compare
with the code: `size ≤ 5_242_880` and `type` one of pdf/jpeg/png. -/
def fileGuard (f : File) : Bool :=
  decide (f.size ≤ 5242880)
    && (f.type == "application/pdf" || f.type == "image/jpeg"
          || f.type == "image/png")

/-- The step-0 required-document check of `handleNextStep` (page.tsx
line 321), written positively: all four Personal slots truthy. -/
def personalComplete (d : Documents) : Bool :=
  d.rgFile.isTruthy && d.cpfFile.isTruthy && d.photo.isTruthy
    && d.proofOfResidence.isTruthy

/-- The step-1 required-document check of `handleNextStep` (page.tsx
lines 330-337), written positively: all six Professional slots truthy. -/
def professionalComplete (d : Documents) : Bool :=
  d.crmFile.isTruthy && d.curriculum.isTruthy && d.criminalRecord.isTruthy
    && d.ethicalRecord.isTruthy && d.debtRecord.isTruthy
    && d.graduationCertificate.isTruthy

/-- `handleNextStep` (page.tsx lines 318-348).  `steps.length` is 3.
The source writes the guards as `!a || !b || ...`; here they appear as
the equivalent `!(a && b && ...)` of the named group predicates.  The
second component is the toast title, `Option.none` when none showed. -/
def handleNextStep (s : ProfileState) : ProfileState × Option String :=
  if s.currentStep < 3 - 1 then
    if s.currentStep = 0 then
      if !(personalComplete s.documents) then
        (s, some "Documentos obrigatórios")
      else
        ({ s with currentStep := s.currentStep + 1 }, Option.none)
    else if s.currentStep = 1 then
      if !(professionalComplete s.documents) then
        (s, some "Documentos obrigatórios")
      else
        ({ s with currentStep := s.currentStep + 1 }, Option.none)
    else
      ({ s with currentStep := s.currentStep + 1 }, Option.none)
  else
    (s, Option.none)

/-- `handlePreviousStep` (page.tsx lines 350-354). -/
def handlePreviousStep (s : ProfileState) : ProfileState :=
  if s.currentStep > 0 then { s with currentStep := s.currentStep - 1 } else s

/-- The external collaborators `handleSaveDocuments` calls, as oracles:
whether `auth.currentUser` is present, whether the
`uploadBytes`/`getDownloadURL` pair for a key resolves, the URL it
yields, and whether the final `addDoc` resolves. -/
structure SaveEnv where
  authed : Bool
  uploadOk : DocKey → Bool
  url : DocKey → String
  addDocOk : Bool

/-- What one call of `handleSaveDocuments` performed: the state after
the call fully resolves, the keys whose upload completed (in loop
order), the `fileUrls` payload of the `addDoc` record when one was
written, and the toast titles shown. -/
structure SaveOutcome where
  state : ProfileState
  uploaded : List DocKey
  record : Option (List (DocKey × String))
  toasts : List String

/-- The `for (const [key, file] of Object.entries(documents))` loop of
`handleSaveDocuments` (page.tsx lines 242-251): skip falsy slots, skip
truthy slots that are not `File` instances, upload the rest in order and
collect `fileUrls`; a rejected upload throws out of the whole loop,
carrying the keys already uploaded. -/
def uploadLoop (env : SaveEnv) (docs : Documents) :
    List DocKey → List DocKey → List (DocKey × String) →
    Except (List DocKey) (List (DocKey × String))
  | [], _, urls => Except.ok urls.reverse
  | k :: ks, done, urls =>
    if (docs.get k).isTruthy then
      if (docs.get k).isFile then
        if env.uploadOk k then
          uploadLoop env docs ks (k :: done) ((k, env.url k) :: urls)
        else
          Except.error done.reverse
      else
        uploadLoop env docs ks done urls
    else
      uploadLoop env docs ks done urls

/-- `handleSaveDocuments` (page.tsx lines 233-292).  A missing session
throws; a throw anywhere inside the `try` lands in the single catch
toast and skips the `addDoc` and every state reset.  On full success the
record is written, the step resets to 0, the set resets to all-null and
`localStorage.removeItem` clears the cache slot.  `isLoading` is set in
a `finally`, so it is false once the call resolves. -/
def handleSaveDocuments (env : SaveEnv) (s : ProfileState) : SaveOutcome :=
  if env.authed then
    match uploadLoop env s.documents DocKey.all [] [] with
    | Except.ok fileUrls =>
        if env.addDocOk then
          { state :=
              { currentStep := 0, documents := emptyDocuments
              , isLoading := false, localCache := Option.none }
          , uploaded := fileUrls.map Prod.fst
          , record := some fileUrls
          , toasts := ["Documentos salvos"] }
        else
          { state := { s with isLoading := false }
          , uploaded := fileUrls.map Prod.fst
          , record := Option.none
          , toasts := ["Erro ao salvar"] }
    | Except.error done =>
        { state := { s with isLoading := false }
        , uploaded := done
        , record := Option.none
        , toasts := ["Erro ao salvar"] }
  else
    { state := { s with isLoading := false }
    , uploaded := []
    , record := Option.none
    , toasts := ["Erro ao salvar"] }

/-- The keys whose slot holds a genuine `File` instance, in entry
order: exactly the uploads a fully successful submit performs. -/
def fileKeys (d : Documents) : List DocKey :=
  DocKey.all.filter fun k => (d.get k).isFile

/-- The `disabled={isLoading}` attribute of the document-wizard buttons,
`Enviar Documentos` included (page.tsx lines 893-912): the only
double-submit protection the page has. -/
def sendDisabled (s : ProfileState) : Bool :=
  s.isLoading

end Profile

/-! Concrete sample data used by the counterexamples and witnesses. -/

/-- A 1 KiB PDF: passes both file guards. -/
def samplePdf : Profile.File :=
  { name := "doc.pdf", size := 1024, type := "application/pdf" }

/-- A 2 MiB PNG: passes both file guards. -/
def samplePng : Profile.File :=
  { name := "foto.png", size := 2097152, type := "image/png" }

/-- A 6 MiB PDF: fails the size guard. -/
def bigPdf : Profile.File :=
  { name := "grande.pdf", size := 6291456, type := "application/pdf" }

/-- A 1 KiB plain-text file: fails the type guard. -/
def txtFile : Profile.File :=
  { name := "notas.txt", size := 1024, type := "text/plain" }

/-- A set with the four Personal slots filled by in-session files. -/
def personalDocs : Profile.Documents :=
  { Profile.emptyDocuments with
      rgFile := .file samplePdf
    , cpfFile := .file samplePdf
    , photo := .file samplePng
    , proofOfResidence := .file samplePdf }

/-- A set with all ten required slots (Personal and Professional)
filled by in-session files. -/
def allRequiredDocs : Profile.Documents :=
  { personalDocs with
      crmFile := .file samplePdf
    , curriculum := .file samplePdf
    , criminalRecord := .file samplePdf
    , ethicalRecord := .file samplePdf
    , debtRecord := .file samplePdf
    , graduationCertificate := .file samplePdf }

/-- An environment where every external call succeeds. -/
def envAllOk : Profile.SaveEnv :=
  { authed := true, uploadOk := fun _ => true
  , url := fun _ => "https://storage.example/doc", addDocOk := true }

/-- An environment where every upload throws. -/
def envUploadFails : Profile.SaveEnv :=
  { authed := true, uploadOk := fun _ => false
  , url := fun _ => "https://storage.example/doc", addDocOk := true }

/-- A registration state captured while its submit is still pending:
`isLoading` is set and both submit preconditions hold. -/
def busyReg : Register.RegState :=
  { step := 2, name := "Ana Lima", email := "ana@example.com"
  , password := "secret1", confirmPassword := "secret1"
  , role := some Register.Role.doctor, isLoading := true
  , cnpj := "", crm := "CRM 12345" }

/-- A profile state captured while its document submit is still
pending: `isLoading` is set and all required slots hold files. -/
def busyProfile : Profile.ProfileState :=
  { currentStep := 2, documents := allRequiredDocs, isLoading := true
  , localCache := some (Profile.serializeDocuments allRequiredDocs) }

/-- A profile state about to submit: step 2, all required files
selected, an in-progress copy in the durable cache. -/
def readyProfile : Profile.ProfileState :=
  { currentStep := 2, documents := allRequiredDocs, isLoading := false
  , localCache := some (Profile.serializeDocuments allRequiredDocs) }

/-- A registration state at step 1 with role hospital and a well-formed
CNPJ in the draft. -/
def hospitalStep1 : Register.RegState :=
  { Register.regInit with
      step := 1, role := some Register.Role.hospital
    , cnpj := "12.345.678/0001-99" }

/-- A document set as it looks after a reload (every previously saved
slot restored as a plain object) with one freshly selected file on
top. -/
def restoredPlusPhoto : Profile.Documents :=
  (Profile.rehydrate allRequiredDocs).set Profile.DocKey.photo
    (Profile.DocEntry.file samplePng)

/-- A profile state holding `restoredPlusPhoto`. -/
def restoredProfile : Profile.ProfileState :=
  { currentStep := 2, documents := restoredPlusPhoto, isLoading := false
  , localCache := some (Profile.serializeDocuments restoredPlusPhoto) }

/-! Helper lemmas. -/

/-- `DocKey.all` enumerates every key. -/
theorem mem_docKey_all (k : Profile.DocKey) : k ∈ Profile.DocKey.all := by
  cases k <;> simp [Profile.DocKey.all]

/-- Every slot of the all-null literal is absent. -/
theorem emptyDocuments_get (k : Profile.DocKey) :
    Profile.emptyDocuments.get k = Profile.DocEntry.null := by
  cases k <;> rfl

/-- Reading the slot just written. -/
theorem documents_get_set_self (d : Profile.Documents) (k : Profile.DocKey)
    (e : Profile.DocEntry) : (d.set k e).get k = e := by
  cases k <;> rfl

/-- Writing one slot leaves every other slot unchanged. -/
theorem documents_get_set_other (d : Profile.Documents) (k : Profile.DocKey)
    (e : Profile.DocEntry) (k2 : Profile.DocKey) (h : k2 ≠ k) :
    (d.set k e).get k2 = d.get k2 := by
  cases k <;> cases k2 <;> first | rfl | exact absurd rfl h

/-- If every `File` slot in `l` uploads cleanly, the loop completes and
collects one URL per `File` slot, in entry order. -/
theorem uploadLoop_ok (env : Profile.SaveEnv) (docs : Profile.Documents)
    (l : List Profile.DocKey) :
    ∀ (done : List Profile.DocKey) (urls : List (Profile.DocKey × String)),
    (∀ k, k ∈ l → (docs.get k).isFile = true → env.uploadOk k = true) →
    Profile.uploadLoop env docs l done urls =
      Except.ok (urls.reverse ++
        (l.filter fun k => (docs.get k).isFile).map fun k => (k, env.url k)) := by
  induction l with
  | nil =>
      intro done urls h
      simp [Profile.uploadLoop]
  | cons k ks ih =>
      intro done urls h
      have htail : ∀ k2, k2 ∈ ks → (docs.get k2).isFile = true →
          env.uploadOk k2 = true :=
        fun k2 hk2 => h k2 (List.mem_cons_of_mem k hk2)
      cases hdk : docs.get k with
      | null =>
          have hfk : (docs.get k).isFile = false := by rw [hdk]; rfl
          simp only [Profile.uploadLoop, hdk, Profile.DocEntry.isTruthy,
            Bool.false_eq_true, if_false]
          rw [ih done urls htail]
          simp [List.filter_cons, hfk]
      | plainObj =>
          have hfk : (docs.get k).isFile = false := by rw [hdk]; rfl
          simp only [Profile.uploadLoop, hdk, Profile.DocEntry.isTruthy,
            Profile.DocEntry.isFile, if_true, Bool.false_eq_true, if_false]
          rw [ih done urls htail]
          simp [List.filter_cons, hdk, hfk]
          rfl
      | file f =>
          have hfk : (docs.get k).isFile = true := by rw [hdk]; rfl
          have hok : env.uploadOk k = true :=
            h k (List.mem_cons_self k ks) hfk
          simp only [Profile.uploadLoop, hdk, Profile.DocEntry.isTruthy,
            Profile.DocEntry.isFile, if_true, hok]
          rw [ih (k :: done) ((k, env.url k) :: urls) htail]
          simp [List.filter_cons, hdk, hfk]
          rfl

/-- If some `File` slot in `l` fails its upload, the loop throws. -/
theorem uploadLoop_error (env : Profile.SaveEnv) (docs : Profile.Documents)
    (l : List Profile.DocKey) :
    ∀ (done : List Profile.DocKey) (urls : List (Profile.DocKey × String)),
    (∃ k, k ∈ l ∧ (docs.get k).isFile = true ∧ env.uploadOk k = false) →
    ∃ d, Profile.uploadLoop env docs l done urls = Except.error d := by
  induction l with
  | nil =>
      intro done urls h
      rcases h with ⟨k, hk, -, -⟩
      simp at hk
  | cons k0 ks ih =>
      intro done urls h
      rcases h with ⟨k, hk, hf, hno⟩
      rcases List.mem_cons.mp hk with rfl | hmem
      · cases hdk : docs.get k with
        | null => rw [hdk] at hf; simp [Profile.DocEntry.isFile] at hf
        | plainObj => rw [hdk] at hf; simp [Profile.DocEntry.isFile] at hf
        | file f =>
            refine ⟨done.reverse, ?_⟩
            simp only [Profile.uploadLoop, hdk, Profile.DocEntry.isTruthy,
              Profile.DocEntry.isFile, if_true, hno, Bool.false_eq_true,
              if_false]
      · cases hdk : docs.get k0 with
        | null =>
            simp only [Profile.uploadLoop, hdk, Profile.DocEntry.isTruthy,
              Bool.false_eq_true, if_false]
            exact ih done urls ⟨k, hmem, hf, hno⟩
        | plainObj =>
            simp only [Profile.uploadLoop, hdk, Profile.DocEntry.isTruthy,
              Profile.DocEntry.isFile, if_true, Bool.false_eq_true, if_false]
            exact ih done urls ⟨k, hmem, hf, hno⟩
        | file f =>
            cases hok : env.uploadOk k0 with
            | true =>
                simp only [Profile.uploadLoop, hdk, Profile.DocEntry.isTruthy,
                  Profile.DocEntry.isFile, if_true, hok]
                exact ih (k0 :: done) ((k0, env.url k0) :: urls)
                  ⟨k, hmem, hf, hno⟩
            | false =>
                refine ⟨done.reverse, ?_⟩
                simp only [Profile.uploadLoop, hdk, Profile.DocEntry.isTruthy,
                  Profile.DocEntry.isFile, if_true, hok, Bool.false_eq_true,
                  if_false]

/-- `crmDigits` unfolded to its arithmetic content. -/
theorem crmDigits_iff (d : List Char) :
    Register.crmDigits d = true ↔
      4 ≤ d.length ∧ d.length ≤ 6 ∧ d.all Char.isDigit = true := by
  simp [Register.crmDigits, Bool.and_eq_true, decide_eq_true_eq, and_assoc]

/-- `crmTail` accepts exactly an optional JS-whitespace character
followed by 4-6 ASCII digits. -/
theorem crmTail_iff (rest : List Char) :
    Register.crmTail rest = true ↔
      ∃ w d, rest = w ++ d
        ∧ (w = [] ∨ ∃ c, w = [c] ∧ Register.isJsWhitespace c = true)
        ∧ 4 ≤ d.length ∧ d.length ≤ 6 ∧ d.all Char.isDigit = true := by
  cases rest with
  | nil =>
      constructor
      · intro h
        exfalso
        simp [Register.crmTail, Register.crmDigits] at h
      · rintro ⟨w, d, hr, -, h4, -, -⟩
        exfalso
        rcases List.append_eq_nil.mp hr.symm with ⟨-, rfl⟩
        simp at h4
  | cons c r2 =>
      constructor
      · intro h
        rcases (by simpa [Register.crmTail] using h :
            Register.crmDigits (c :: r2) = true ∨
              Register.isJsWhitespace c = true ∧ Register.crmDigits r2 = true)
          with hd | ⟨hw, hd⟩
        · exact ⟨[], c :: r2, rfl, Or.inl rfl, (crmDigits_iff _).mp hd⟩
        · exact ⟨[c], r2, rfl, Or.inr ⟨c, rfl, hw⟩, (crmDigits_iff _).mp hd⟩
      · rintro ⟨w, d, hr, hw | ⟨c2, hw, hc⟩, h4, h5, h6⟩
        · subst hw
          simp only [List.nil_append] at hr
          subst hr
          simp only [Register.crmTail, Bool.or_eq_true]
          exact Or.inl ((crmDigits_iff _).mpr ⟨h4, h5, h6⟩)
        · subst hw
          simp only [List.singleton_append, List.cons.injEq] at hr
          rcases hr with ⟨rfl, rfl⟩
          simp only [Register.crmTail, Bool.or_eq_true, Bool.and_eq_true]
          exact Or.inr ⟨hc, (crmDigits_iff _).mpr ⟨h4, h5, h6⟩⟩

/-- `isValidCrmChars` accepts exactly `CRM`, an optional JS-whitespace
character, and 4-6 ASCII digits. -/
theorem isValidCrmChars_iff (cs : List Char) :
    Register.isValidCrmChars cs = true ↔
      ∃ w d, cs = 'C' :: 'R' :: 'M' :: (w ++ d)
        ∧ (w = [] ∨ ∃ c, w = [c] ∧ Register.isJsWhitespace c = true)
        ∧ 4 ≤ d.length ∧ d.length ≤ 6 ∧ d.all Char.isDigit = true := by
  rcases cs with _ | ⟨a, _ | ⟨b, _ | ⟨c, rest⟩⟩⟩
  · simp [Register.isValidCrmChars]
  · simp [Register.isValidCrmChars]
  · simp [Register.isValidCrmChars]
  · simp only [Register.isValidCrmChars, Bool.and_eq_true, beq_iff_eq,
      and_assoc]
    constructor
    · rintro ⟨rfl, rfl, rfl, ht⟩
      rcases (crmTail_iff rest).mp ht with ⟨w, d, hr, hw, h4, h5, h6⟩
      exact ⟨w, d, by rw [hr], hw, h4, h5, h6⟩
    · rintro ⟨w, d, heq, hw, h4, h5, h6⟩
      obtain ⟨rfl, rfl, rfl, hrest⟩ :
          a = 'C' ∧ b = 'R' ∧ c = 'M' ∧ rest = w ++ d := by
        simpa using heq
      exact ⟨rfl, rfl, rfl, (crmTail_iff _).mpr ⟨w, d, hrest, hw, h4, h5, h6⟩⟩

/-- `handleSubmit` never changes `step`. -/
theorem handleSubmit_step (ok : Bool) (s : Register.RegState) :
    (Register.handleSubmit ok s).state.step = s.step := by
  unfold Register.handleSubmit
  split
  · rfl
  · split
    · rfl
    · split <;> rfl

/-- `handleNextStep` keeps the step on a validation toast and adds one
otherwise. -/
theorem handleNextStep_step (s : Register.RegState) :
    (Register.handleNextStep s).1.step = s.step ∨
      (Register.handleNextStep s).1.step = s.step + 1 := by
  unfold Register.handleNextStep
  split
  · exact Or.inl rfl
  · split
    · exact Or.inl rfl
    · exact Or.inr rfl

/-- Every reachable registration state sits at step 0, 1 or 2. -/
theorem regReachable_step (s : Register.RegState)
    (h : Register.RegReachable s) :
    s.step = 0 ∨ s.step = 1 ∨ s.step = 2 := by
  induction h with
  | init => exact Or.inl rfl
  | selectRole s r hr h0 ih => exact Or.inr (Or.inl rfl)
  | advance s hr h1 ih =>
      rcases handleNextStep_step s with he | he <;> rw [he, h1]
      · exact Or.inr (Or.inl rfl)
      · right; right; norm_num
  | retreat s hr h1 ih =>
      have hstep : (Register.handlePreviousStep s).step = s.step - 1 := rfl
      rw [hstep]
      omega
  | submit s ok hr h2 ih =>
      rw [handleSubmit_step ok s]
      exact ih

/-- A toast-free `handleNextStep` took the unguarded branch: the step
advanced by one. -/
theorem handleNextStep_advanced (s : Register.RegState)
    (ht : (Register.handleNextStep s).2 = []) :
    Register.handleNextStep s = ({ s with step := s.step + 1 }, []) := by
  by_cases hc1 : s.role = some Register.Role.hospital ∧ s.step = 1 ∧
      Register.isValidCnpj s.cnpj = false
  · simp [Register.handleNextStep, hc1] at ht
  · by_cases hc2 : s.role = some Register.Role.doctor ∧ s.step = 1 ∧
        Register.isValidCrm s.crm = false
    · simp [Register.handleNextStep, hc1, hc2] at ht
    · simp [Register.handleNextStep, hc1, hc2]

/-! The claims. -/

/-- C5: `RegistrationWizard.submit()` — when password differs from
confirmPassword, or no role is set, the handler shows the validation
toast, performs no `registerUser` call and leaves the whole state
(step and every draft field) unchanged; only when both preconditions
hold is `registerUser` invoked, and then exactly once per submit. -/
theorem register_submit_preconditions (ok : Bool) (s : Register.RegState) :
    (s.password ≠ s.confirmPassword →
        Register.handleSubmit ok s =
          { state := s, registerCalls := 0
          , toasts := ["Senhas não coincidem"] })
  ∧ (s.password = s.confirmPassword → s.role = Option.none →
        Register.handleSubmit ok s =
          { state := s, registerCalls := 0, toasts := ["Erro"] })
  ∧ (∀ r, s.password = s.confirmPassword → s.role = some r →
        (Register.handleSubmit ok s).registerCalls = 1) := by
  refine ⟨fun hne => ?_, fun heq hrole => ?_, fun r heq hrole => ?_⟩
  · simp [Register.handleSubmit, hne]
  · simp [Register.handleSubmit, heq, hrole]
  · cases ok <;> simp [Register.handleSubmit, heq, hrole]

/-- Witness for C5 at concrete states: mismatched passwords produce the
toast and no call; matching passwords with a role produce one call. -/
theorem register_submit_preconditions_witness :
    Register.handleSubmit true
        { busyReg with confirmPassword := "other", isLoading := false } =
      { state :=
          { busyReg with confirmPassword := "other", isLoading := false }
      , registerCalls := 0, toasts := ["Senhas não coincidem"] }
  ∧ (Register.handleSubmit true
        { busyReg with isLoading := false }).registerCalls = 1 := by
  constructor
  · exact (register_submit_preconditions true _).1 (by decide)
  · exact (register_submit_preconditions true _).2.2
      Register.Role.doctor rfl rfl

/-- C6: `RegistrationWizard.advance()` at step 1 — an identifier that
fails its role's format validator leaves the step unchanged and shows
the validation toast; an identifier that passes moves the wizard to
step 2. -/
theorem register_advance_role_validation (s : Register.RegState)
    (h1 : s.step = 1) :
    (s.role = some Register.Role.hospital →
        (Register.isValidCnpj s.cnpj = false →
            Register.handleNextStep s = (s, ["CNPJ inválido"]))
      ∧ (Register.isValidCnpj s.cnpj = true →
            Register.handleNextStep s = ({ s with step := 2 }, [])))
  ∧ (s.role = some Register.Role.doctor →
        (Register.isValidCrm s.crm = false →
            Register.handleNextStep s = (s, ["CRM inválido"]))
      ∧ (Register.isValidCrm s.crm = true →
            Register.handleNextStep s = ({ s with step := 2 }, []))) := by
  constructor
  · intro hrole
    refine ⟨fun hv => ?_, fun hv => ?_⟩
    · simp [Register.handleNextStep, hrole, h1, hv]
    · simp [Register.handleNextStep, hrole, h1, hv]
  · intro hrole
    refine ⟨fun hv => ?_, fun hv => ?_⟩
    · simp [Register.handleNextStep, hrole, h1, hv]
    · simp [Register.handleNextStep, hrole, h1, hv]

/-- Witness for C6 at concrete states: a valid CNPJ advances the
hospital wizard from step 1 to step 2; an invalid one leaves it at
step 1 with the toast. -/
theorem register_advance_role_validation_witness :
    Register.handleNextStep hospitalStep1 =
      ({ hospitalStep1 with step := 2 }, [])
  ∧ Register.handleNextStep { hospitalStep1 with cnpj := "123" } =
      ({ hospitalStep1 with cnpj := "123" }, ["CNPJ inválido"]) := by
  constructor
  · exact ((register_advance_role_validation hospitalStep1 rfl).1 rfl).2
      (by decide)
  · exact ((register_advance_role_validation
      { hospitalStep1 with cnpj := "123" } rfl).1 rfl).1 (by decide)

/-- C9: every state the RegistrationWizard can reach from the initial
state through the offered operations has step 0, 1 or 2; selectRole
lands at step 1, an advance that shows no toast moves step 1 to step 2,
and retreat decrements the step by one. -/
theorem register_step_invariant (s : Register.RegState)
    (h : Register.RegReachable s) :
    (s.step = 0 ∨ s.step = 1 ∨ s.step = 2)
  ∧ (∀ r, (Register.handleRoleSelection s r).step = 1)
  ∧ (s.step = 1 → (Register.handleNextStep s).2 = [] →
        (Register.handleNextStep s).1.step = 2)
  ∧ (Register.handlePreviousStep s).step = s.step - 1 := by
  refine ⟨regReachable_step s h, fun r => rfl, ?_, rfl⟩
  intro h1 ht
  rw [handleNextStep_advanced s ht]
  simp [h1]

/-- Witness for C9 at the initial state (reachable by construction). -/
theorem register_step_invariant_witness :
    (Register.regInit.step = 0 ∨ Register.regInit.step = 1 ∨
        Register.regInit.step = 2)
  ∧ (Register.handlePreviousStep Register.regInit).step =
      Register.regInit.step - 1 := by
  have h := register_step_invariant Register.regInit
    Register.RegReachable.init
  exact ⟨h.1, h.2.2.2⟩

/-- C8 as stated is too narrow: the regex class `\s` accepts any
JS whitespace character, not only a space — `"CRM\t1234"` (a tab)
passes `isValidCrm` while the claimed space-only shape rejects it. -/
theorem crm_space_only_counterexample :
    Register.isValidCrm "CRM\t1234" = true
  ∧ Register.crmClaimShape "CRM\t1234" = false :=
  ⟨by decide, by decide⟩

/-- C8 amended: `isValidCrm` returns true iff the string is exactly
`CRM`, optionally followed by one whitespace character (the JS `\s`
class: space, tab, newline, ...), followed by 4 to 6 ASCII digits; in
particular `CRM12345` and `CRM 12345` are accepted and `CRM123` is
rejected. -/
theorem crm_regex_characterization :
    (∀ s : String, Register.isValidCrm s = true ↔
        Register.crmWhitespaceShape s)
  ∧ Register.isValidCrm "CRM12345" = true
  ∧ Register.isValidCrm "CRM 12345" = true
  ∧ Register.isValidCrm "CRM123" = false := by
  refine ⟨fun s => ?_, by decide, by decide, by decide⟩
  exact isValidCrmChars_iff s.data

/-- Membership in the allowed MIME list, written out. -/
theorem fileAllowedTypes_mem (t : String) :
    Profile.fileAllowedTypes.contains t = true ↔
      (t = "application/pdf" ∨ t = "image/jpeg" ∨ t = "image/png") := by
  simp [Profile.fileAllowedTypes, List.contains_cons]

/-- The spec's `fileGuard` in Prop form. -/
theorem fileGuard_iff (f : Profile.File) :
    Profile.fileGuard f = true ↔
      (f.size ≤ 5242880 ∧
        (f.type = "application/pdf" ∨ f.type = "image/jpeg" ∨
          f.type = "image/png")) := by
  simp [Profile.fileGuard, Bool.and_eq_true, Bool.or_eq_true, beq_iff_eq,
    decide_eq_true_eq, or_assoc]

/-- C7: `handleFileChange` accepts a selected file iff it passes the
spec's guard — size at most 5,242,880 bytes and MIME type one of
pdf/jpeg/png; an oversized file draws the size toast, an allowed-size
file of a disallowed type draws the type toast, a rejected file leaves
the document set completely unchanged, and an accepted file is stored
under its key with every other key unchanged. -/
theorem file_change_guard (docs : Profile.Documents) (k : Profile.DocKey)
    (f : Profile.File) :
    (((Profile.handleFileChange docs k f).2 = Option.none) ↔
        Profile.fileGuard f = true)
  ∧ (Profile.fileGuard f = true →
        Profile.handleFileChange docs k f =
          (docs.set k (Profile.DocEntry.file f), Option.none))
  ∧ (5242880 < f.size →
        Profile.handleFileChange docs k f =
          (docs, some "Arquivo muito grande"))
  ∧ (f.size ≤ 5242880 →
        Profile.fileAllowedTypes.contains f.type = false →
        Profile.handleFileChange docs k f = (docs, some "Formato inválido"))
  ∧ (Profile.fileGuard f = false →
        (Profile.handleFileChange docs k f).1 = docs)
  ∧ ((docs.set k (Profile.DocEntry.file f)).get k = Profile.DocEntry.file f)
  ∧ (∀ k2, k2 ≠ k →
        (docs.set k (Profile.DocEntry.file f)).get k2 = docs.get k2) := by
  have hbig : f.size > 5 * 1024 * 1024 →
      Profile.handleFileChange docs k f =
        (docs, some "Arquivo muito grande") := by
    intro hsz
    simp [Profile.handleFileChange, hsz]
  have hbad : ¬ f.size > 5 * 1024 * 1024 →
      Profile.fileAllowedTypes.contains f.type = false →
      Profile.handleFileChange docs k f = (docs, some "Formato inválido") := by
    intro hsz hty
    have hmem : f.type ∉ Profile.fileAllowedTypes := by simpa using hty
    simp [Profile.handleFileChange, hsz, hmem]
  have hok : ¬ f.size > 5 * 1024 * 1024 →
      Profile.fileAllowedTypes.contains f.type = true →
      Profile.handleFileChange docs k f =
        (docs.set k (Profile.DocEntry.file f), Option.none) := by
    intro hsz hty
    have hmem : f.type ∈ Profile.fileAllowedTypes := by simpa using hty
    simp [Profile.handleFileChange, hsz, hmem]
  have hguard : Profile.fileGuard f = true ↔
      (¬ f.size > 5 * 1024 * 1024 ∧
        Profile.fileAllowedTypes.contains f.type = true) := by
    rw [fileGuard_iff, fileAllowedTypes_mem]
    constructor
    · rintro ⟨h1, h2⟩
      exact ⟨by omega, h2⟩
    · rintro ⟨h1, h2⟩
      exact ⟨by omega, h2⟩
  refine ⟨?_, ?_, ?_, ?_, ?_, documents_get_set_self docs k _,
    fun k2 hk2 => documents_get_set_other docs k _ k2 hk2⟩
  · constructor
    · intro h2none
      by_cases hsz : f.size > 5 * 1024 * 1024
      · rw [hbig hsz] at h2none
        simp at h2none
      · by_cases hty : Profile.fileAllowedTypes.contains f.type = true
        · exact hguard.mpr ⟨hsz, hty⟩
        · rw [hbad hsz ((Bool.not_eq_true _).mp hty)] at h2none
          simp at h2none
    · intro hg
      rcases hguard.mp hg with ⟨hsz, hty⟩
      rw [hok hsz hty]
  · intro hg
    rcases hguard.mp hg with ⟨hsz, hty⟩
    exact hok hsz hty
  · intro hsz
    exact hbig (by omega)
  · intro hsz hty
    exact hbad (by omega) hty
  · intro hgf
    by_cases hsz : f.size > 5 * 1024 * 1024
    · rw [hbig hsz]
    · by_cases hty : Profile.fileAllowedTypes.contains f.type = true
      · rw [hguard.mpr ⟨hsz, hty⟩] at hgf
        cases hgf
      · rw [hbad hsz ((Bool.not_eq_true _).mp hty)]

/-- C4: ProfileWizard `advance()` — at step 0 it moves to step 1 iff all
four Personal slots are present, otherwise the toast shows and the step
stays 0; at step 1 it moves to step 2 iff all six Professional slots are
present, otherwise the toast shows and the step stays 1; at the last
step (2) it is a no-op. -/
theorem profile_advance_gating (s : Profile.ProfileState) :
    (s.currentStep = 0 →
        (Profile.personalComplete s.documents = true →
            Profile.handleNextStep s =
              ({ s with currentStep := 1 }, Option.none))
      ∧ (Profile.personalComplete s.documents = false →
            Profile.handleNextStep s = (s, some "Documentos obrigatórios")))
  ∧ (s.currentStep = 1 →
        (Profile.professionalComplete s.documents = true →
            Profile.handleNextStep s =
              ({ s with currentStep := 2 }, Option.none))
      ∧ (Profile.professionalComplete s.documents = false →
            Profile.handleNextStep s = (s, some "Documentos obrigatórios")))
  ∧ (s.currentStep = 2 → Profile.handleNextStep s = (s, Option.none)) := by
  refine ⟨fun h0 => ⟨fun hp => ?_, fun hp => ?_⟩,
    fun h1 => ⟨fun hp => ?_, fun hp => ?_⟩, fun h2 => ?_⟩
  · simp [Profile.handleNextStep, h0, hp]
  · simp [Profile.handleNextStep, h0, hp]
  · simp [Profile.handleNextStep, h1, hp]
  · simp [Profile.handleNextStep, h1, hp]
  · simp [Profile.handleNextStep, h2]

/-- Witness for C4 at concrete states: all four Personal files advance
step 0 to 1, a missing photo blocks it, and advance at step 2 is a
no-op. -/
theorem profile_advance_gating_witness :
    Profile.handleNextStep
        { currentStep := 0, documents := personalDocs, isLoading := false
        , localCache := Option.none } =
      ({ currentStep := 1, documents := personalDocs, isLoading := false
        , localCache := Option.none }, Option.none)
  ∧ Profile.handleNextStep
        { currentStep := 0
        , documents := { personalDocs with photo := Profile.DocEntry.null }
        , isLoading := false, localCache := Option.none } =
      ({ currentStep := 0
        , documents := { personalDocs with photo := Profile.DocEntry.null }
        , isLoading := false, localCache := Option.none },
        some "Documentos obrigatórios")
  ∧ Profile.handleNextStep
        { currentStep := 2, documents := personalDocs, isLoading := false
        , localCache := Option.none } =
      ({ currentStep := 2, documents := personalDocs, isLoading := false
        , localCache := Option.none }, Option.none) := by
  refine ⟨?_, ?_, ?_⟩
  · exact ((profile_advance_gating _).1 rfl).1 rfl
  · exact ((profile_advance_gating _).1 rfl).2 rfl
  · exact (profile_advance_gating _).2.2 rfl

/-- C1: a document submit whose upload sequence throws partway performs
no `addDoc` record write, reports the failure as the single error
toast, and leaves the in-memory document set exactly as it was. -/
theorem save_documents_partial_failure (env : Profile.SaveEnv)
    (s : Profile.ProfileState) (hauth : env.authed = true)
    (hfail : ∃ k, (s.documents.get k).isFile = true ∧
        env.uploadOk k = false) :
    (Profile.handleSaveDocuments env s).record = Option.none
  ∧ (Profile.handleSaveDocuments env s).state.documents = s.documents
  ∧ (Profile.handleSaveDocuments env s).toasts = ["Erro ao salvar"] := by
  rcases hfail with ⟨k, hf, hno⟩
  rcases uploadLoop_error env s.documents Profile.DocKey.all [] []
      ⟨k, mem_docKey_all k, hf, hno⟩ with ⟨d, hd⟩
  simp [Profile.handleSaveDocuments, hauth, hd]

/-- Witness for C1: every upload failing on a set that holds files
leaves no record, the set untouched and one error toast. -/
theorem save_documents_partial_failure_witness :
    (Profile.handleSaveDocuments envUploadFails readyProfile).record =
      Option.none
  ∧ (Profile.handleSaveDocuments envUploadFails
        readyProfile).state.documents = readyProfile.documents
  ∧ (Profile.handleSaveDocuments envUploadFails readyProfile).toasts =
      ["Erro ao salvar"] :=
  save_documents_partial_failure envUploadFails readyProfile rfl
    ⟨Profile.DocKey.rgFile, rfl, rfl⟩

/-- C3 as stated is false at a concrete fully successful submit: the
record is written and the success toast shown, yet after the persist
effect that the `setDocuments` reset triggers, the fixed key still has
an entry in the durable cache. -/
theorem save_documents_cache_counterexample :
    (Profile.handleSaveDocuments envAllOk readyProfile).toasts =
      ["Documentos salvos"]
  ∧ (Profile.handleSaveDocuments envAllOk readyProfile).record.isSome = true
  ∧ (Profile.persistEffect
        (Profile.handleSaveDocuments envAllOk
          readyProfile).state).localCache.isSome = true :=
  ⟨rfl, rfl, rfl⟩

/-- C3 amended: after a fully successful submit the step resets to 0,
every in-memory slot is absent, and the handler removes the durable
entry (`removeItem`); but the persist effect that the document-set reset
triggers immediately re-creates the entry, holding the serialization of
the all-absent set — so an entry under the fixed key remains. -/
theorem save_documents_success_state (env : Profile.SaveEnv)
    (s : Profile.ProfileState) (hauth : env.authed = true)
    (hups : ∀ k, (s.documents.get k).isFile = true → env.uploadOk k = true)
    (hdb : env.addDocOk = true) :
    (Profile.handleSaveDocuments env s).state.currentStep = 0
  ∧ (∀ k, (Profile.handleSaveDocuments env s).state.documents.get k =
        Profile.DocEntry.null)
  ∧ (Profile.handleSaveDocuments env s).state.localCache = Option.none
  ∧ (Profile.persistEffect
        (Profile.handleSaveDocuments env s).state).localCache =
      some (Profile.serializeDocuments Profile.emptyDocuments) := by
  have hloop := uploadLoop_ok env s.documents Profile.DocKey.all [] []
    (fun k _ => hups k)
  simp [Profile.handleSaveDocuments, hauth, hloop, hdb,
    Profile.persistEffect, emptyDocuments_get]

/-- Witness for C3's amended statement at a concrete successful
submit. -/
theorem save_documents_success_state_witness :
    (Profile.handleSaveDocuments envAllOk readyProfile).state.currentStep = 0
  ∧ (Profile.handleSaveDocuments envAllOk
        readyProfile).state.documents.get Profile.DocKey.rgFile =
      Profile.DocEntry.null
  ∧ (Profile.handleSaveDocuments envAllOk readyProfile).state.localCache =
      Option.none
  ∧ (Profile.persistEffect
        (Profile.handleSaveDocuments envAllOk readyProfile).state).localCache
      = some (Profile.serializeDocuments Profile.emptyDocuments) := by
  have h := save_documents_success_state envAllOk readyProfile rfl
    (fun k _ => rfl) rfl
  exact ⟨h.1, h.2.1 Profile.DocKey.rgFile, h.2.2.1, h.2.2.2⟩

/-- C10: a fully successful submit uploads exactly the slots holding
genuine `File` instances and the persisted mapping carries exactly those
keys; a present slot that is not a `File` instance — such as every slot
restored from the durable cache after a reload — is skipped with no
error, contributing neither an upload nor a key. -/
theorem save_documents_only_file_instances (env : Profile.SaveEnv)
    (s : Profile.ProfileState) (hauth : env.authed = true)
    (hups : ∀ k, (s.documents.get k).isFile = true → env.uploadOk k = true)
    (hdb : env.addDocOk = true) :
    (Profile.handleSaveDocuments env s).record =
      some ((Profile.fileKeys s.documents).map fun k => (k, env.url k))
  ∧ (Profile.handleSaveDocuments env s).uploaded =
      Profile.fileKeys s.documents
  ∧ (Profile.handleSaveDocuments env s).toasts = ["Documentos salvos"]
  ∧ (∀ k, (s.documents.get k).isFile = false →
        k ∉ (Profile.handleSaveDocuments env s).uploaded) := by
  have hloop := uploadLoop_ok env s.documents Profile.DocKey.all [] []
    (fun k _ => hups k)
  have hrec : (Profile.handleSaveDocuments env s).record =
      some ((Profile.fileKeys s.documents).map fun k => (k, env.url k)) := by
    simp [Profile.handleSaveDocuments, hauth, hloop, hdb, Profile.fileKeys]
  have hupl : (Profile.handleSaveDocuments env s).uploaded =
      Profile.fileKeys s.documents := by
    simp [Profile.handleSaveDocuments, hauth, hloop, hdb, Profile.fileKeys,
      Function.comp_def]
  refine ⟨hrec, hupl, ?_, ?_⟩
  · simp [Profile.handleSaveDocuments, hauth, hloop, hdb]
  · intro k hkf
    rw [hupl]
    simp [Profile.fileKeys, List.mem_filter, hkf]

/-- Witness for C10: a set restored from the cache (plain objects) plus
one fresh file uploads only the fresh file's key; the restored `rgFile`
slot is present but contributes nothing. -/
theorem save_documents_only_file_instances_witness :
    (Profile.handleSaveDocuments envAllOk restoredProfile).uploaded =
      [Profile.DocKey.photo]
  ∧ (restoredProfile.documents.get Profile.DocKey.rgFile).isTruthy = true
  ∧ Profile.DocKey.rgFile ∉
      (Profile.handleSaveDocuments envAllOk restoredProfile).uploaded := by
  have h := save_documents_only_file_instances envAllOk restoredProfile rfl
    (fun k _ => rfl) rfl
  refine ⟨?_, rfl, h.2.2.2 Profile.DocKey.rgFile rfl⟩
  rw [h.2.1]
  rfl

/-- C2 fails as stated: with the in-flight flag set and valid inputs, a
repeated direct invocation of the submit handler still performs the
external call — the handlers contain no in-flight short-circuit. -/
theorem inflight_no_shortcircuit_counterexample :
    busyReg.isLoading = true
  ∧ (Register.handleSubmit true busyReg).registerCalls = 1
  ∧ busyProfile.isLoading = true
  ∧ (Profile.handleSaveDocuments envAllOk busyProfile).record.isSome =
      true :=
  ⟨rfl, rfl, rfl, rfl⟩

/-- C2 amended: while a submit is pending the submit buttons are
disabled (`disabled={isLoading}`), and that UI disabling is the only
double-submit protection; the handlers themselves never consult the
in-flight flag, so a repeated direct invocation while the flag is set
still performs the external call. -/
theorem inflight_guard_is_ui_only (ok : Bool) (env : Profile.SaveEnv)
    (s : Register.RegState) (ps : Profile.ProfileState)
    (hs : s.isLoading = true) (hp : ps.isLoading = true) :
    Register.submitDisabled s = true
  ∧ Profile.sendDisabled ps = true
  ∧ (∀ r, s.password = s.confirmPassword → s.role = some r →
        (Register.handleSubmit ok s).registerCalls = 1)
  ∧ (env.authed = true →
      (∀ k, (ps.documents.get k).isFile = true → env.uploadOk k = true) →
      env.addDocOk = true →
      (Profile.handleSaveDocuments env ps).record =
        some ((Profile.fileKeys ps.documents).map fun k => (k, env.url k))) := by
  refine ⟨hs, hp, fun r heq hrole => ?_, fun hauth hups hdb => ?_⟩
  · cases ok <;> simp [Register.handleSubmit, heq, hrole]
  · have hloop := uploadLoop_ok env ps.documents Profile.DocKey.all [] []
      (fun k _ => hups k)
    simp [Profile.handleSaveDocuments, hauth, hloop, hdb, Profile.fileKeys]

/-- Witness for C2's amended statement at concrete pending states. -/
theorem inflight_guard_is_ui_only_witness :
    Register.submitDisabled busyReg = true
  ∧ Profile.sendDisabled busyProfile = true
  ∧ (Register.handleSubmit true busyReg).registerCalls = 1
  ∧ (Profile.handleSaveDocuments envAllOk busyProfile).record =
      some ((Profile.fileKeys busyProfile.documents).map
        fun k => (k, envAllOk.url k)) := by
  have h := inflight_guard_is_ui_only true envAllOk busyReg busyProfile
    rfl rfl
  exact ⟨h.1, h.2.1, h.2.2.1 Register.Role.doctor rfl rfl,
    h.2.2.2 rfl (fun k _ => rfl) rfl⟩
